import Mathlib

/-!
Shallow embedding of the piano-tile renderer (pianoTileCreator.py).

Coordinates are matplotlib axis coordinates: the y-axis points upwards,
the keyboard occupies y in [0, kb_top] and tiles fall downwards (their y
decreases over time).  All float arithmetic of the source is modelled by
exact rational arithmetic.
-/

namespace PianoTiles

/-- A miditoolkit note: pitch, start tick, end tick, velocity.
The field name end_ stands for the source attribute named end. -/
structure Note where
  pitch : ℤ
  start : ℚ
  end_ : ℚ
  velocity : ℚ
deriving DecidableEq

/-- A matplotlib Rectangle patch: position (x, y) of the lower-left corner,
width, height, facecolor and alpha. -/
structure Rect where
  x : ℚ
  y : ℚ
  width : ℚ
  height : ℚ
  facecolor : String
  alpha : ℚ
deriving DecidableEq

/-- The configuration constants a KB_key object carries
(KB_key.__init__ arguments). -/
structure Cfg where
  video_height : ℚ
  kb_top : ℚ
  tile_velocity : ℚ
  ticks_per_sec : ℚ
  key_color : String
  showKeyVelocity : Bool
deriving DecidableEq

/-- One element of KB_key._tiles: the integer-coded state
(0 = not appeared, 1 = present, 2 = done), the tile rectangle, whether the
rectangle is currently added to the axes (add_patch / remove), and the
remembered creation-time quantities start_y_pos and initial_w. -/
structure Tile where
  state : ℕ
  rect : Rect
  drawn : Bool
  start_y_pos : ℚ
  initial_w : ℚ
deriving DecidableEq

/-- start_y_pos of KB_key.createTiles:
n.start / self._ticks_per_sec * self._tile_velocity + self._kbtop. -/
def start_y_pos (cfg : Cfg) (n : Note) : ℚ :=
  n.start / cfg.ticks_per_sec * cfg.tile_velocity + cfg.kb_top

/-- end_y_pos of KB_key.createTiles. -/
def end_y_pos (cfg : Cfg) (n : Note) : ℚ :=
  n.end_ / cfg.ticks_per_sec * cfg.tile_velocity + cfg.kb_top

/-- One iteration of the loop body of KB_key.createTiles. -/
def createTile (cfg : Cfg) (keyRect : Rect) (n : Note) : Tile :=
  let sy := start_y_pos cfg n
  let ey := end_y_pos cfg n
  let a : ℚ := if cfg.showKeyVelocity then n.velocity / 127 else 1
  { state := 0
    rect := { x := keyRect.x, y := sy, width := keyRect.width,
              height := ey - sy, facecolor := cfg.key_color, alpha := a }
    drawn := false
    start_y_pos := sy
    initial_w := ey - sy }

/-- KB_key.createTiles. -/
def createTiles (cfg : Cfg) (keyRect : Rect) (notes : List Note) : List Tile :=
  notes.map (createTile cfg keyRect)

/-- The "move position" section of KB_key.update for one tile
(lines 77-83 of pianoTileCreator.py). -/
def moveTile (cfg : Cfg) (tick : ℚ) (t : Tile) : Tile :=
  if t.state ≤ 1 then
    if t.rect.y ≤ cfg.kb_top then
      { t with rect := { t.rect with
          height := max 0 (t.initial_w - cfg.kb_top + t.start_y_pos
                            - cfg.tile_velocity * tick / cfg.ticks_per_sec) } }
    else
      { t with rect := { t.rect with
          y := t.start_y_pos - cfg.tile_velocity * tick / cfg.ticks_per_sec } }
  else t

/-- The "state transitiion" section of KB_key.update for one tile
(lines 86-93 of pianoTileCreator.py). -/
def transitionTile (cfg : Cfg) (t : Tile) : Tile :=
  if t.state = 1 then
    if t.rect.height ≤ 0 then { t with drawn := false, state := 2 } else t
  else if t.state = 0 then
    if t.rect.y ≤ cfg.video_height then { t with drawn := true, state := 1 }
    else t
  else t

/-- The full per-frame processing of one tile inside KB_key.update. -/
def updateTile (cfg : Cfg) (tick : ℚ) (t : Tile) : Tile :=
  transitionTile cfg (moveTile cfg tick t)

/-- Replaying KB_key.update on one tile over a list of ticks. -/
def replayTile (cfg : Cfg) (ticks : List ℚ) (t : Tile) : Tile :=
  ticks.foldl (fun acc tk => updateTile cfg tk acc) t

/-- The tick schedule of PianoTileCreator.render: frame i carries
tick = i * ticks_per_frame; this lists the ticks of frames 0..n. -/
def schedule (tpf : ℚ) (n : ℕ) : List ℚ :=
  (List.range (n + 1)).map (fun i : ℕ => (i : ℚ) * tpf)

/-- The observable tile data named by the spec: (phase, drawn_y, drawn_height). -/
def tileObs (t : Tile) : ℕ × ℚ × ℚ :=
  (t.state, t.rect.y, t.rect.height)

/-! ### C6: the DONE state is terminal -/

lemma updateTile_of_done (cfg : Cfg) (tick : ℚ) (t : Tile) (h : t.state = 2) :
    updateTile cfg tick t = t := by
  simp [updateTile, moveTile, transitionTile, h]

/-- Claim C6: once a tile's phase is DONE (state 2), any further sequence of
per-frame updates leaves the tile completely unchanged: it remains DONE, and
its drawn flag (membership in the drawable patch set) never becomes true
again.  The DONE state is terminal and irreversible. -/
theorem done_state_terminal (cfg : Cfg) (t : Tile) (ticks : List ℚ)
    (h : t.state = 2) :
    replayTile cfg ticks t = t ∧ (replayTile cfg ticks t).state = 2 := by
  have main : replayTile cfg ticks t = t := by
    induction ticks with
    | nil => rfl
    | cons tk rest ih =>
      simp only [replayTile, List.foldl_cons] at ih ⊢
      rw [updateTile_of_done cfg tk t h, ih]
  exact ⟨main, by rw [main, h]⟩

/-- Witness for C6 at a concrete DONE tile and concrete schedule. -/
theorem done_state_terminal_witness :
    (Tile.mk 2 (Rect.mk 0 5 1 0 "green" 1) false 11 12).state = 2 ∧
      (replayTile (Cfg.mk 100 10 1 1 "green" false) [0, 2, 4]
          (Tile.mk 2 (Rect.mk 0 5 1 0 "green" 1) false 11 12)
        = Tile.mk 2 (Rect.mk 0 5 1 0 "green" 1) false 11 12 ∧
      (replayTile (Cfg.mk 100 10 1 1 "green" false) [0, 2, 4]
          (Tile.mk 2 (Rect.mk 0 5 1 0 "green" 1) false 11 12)).state = 2) :=
  ⟨rfl, done_state_terminal (Cfg.mk 100 10 1 1 "green" false)
      (Tile.mk 2 (Rect.mk 0 5 1 0 "green" 1) false 11 12) [0, 2, 4] rfl⟩

/-! ### C7: drawn height is never negative -/

lemma updateTile_height_nonneg (cfg : Cfg) (tick : ℚ) (t : Tile)
    (h : 0 ≤ t.rect.height) : 0 ≤ (updateTile cfg tick t).rect.height := by
  unfold updateTile transitionTile moveTile
  repeat' split
  all_goals simp_all [le_max_left]

/-- Claim C7: for every tile derived from a note with end > start (and the
documented configuration domain: positive ticks_per_sec, non-negative
tile_velocity), the drawn height stays non-negative after every frame
update, at every tick. -/
theorem tile_height_nonneg (cfg : Cfg) (keyRect : Rect) (n : Note)
    (ticks : List ℚ) (htps : 0 < cfg.ticks_per_sec)
    (hv : 0 ≤ cfg.tile_velocity) (hse : n.start < n.end_) :
    0 ≤ (replayTile cfg ticks (createTile cfg keyRect n)).rect.height := by
  have h0 : 0 ≤ (createTile cfg keyRect n).rect.height := by
    have : (createTile cfg keyRect n).rect.height
        = (n.end_ - n.start) / cfg.ticks_per_sec * cfg.tile_velocity := by
      simp only [createTile, start_y_pos, end_y_pos]
      ring
    rw [this]
    have hnum : 0 ≤ (n.end_ - n.start) / cfg.ticks_per_sec :=
      div_nonneg (by linarith) htps.le
    exact mul_nonneg hnum hv
  have step : ∀ (u : Tile) (l : List ℚ), 0 ≤ u.rect.height →
      0 ≤ (replayTile cfg l u).rect.height := by
    intro u l
    induction l generalizing u with
    | nil => intro h; exact h
    | cons tk rest ih =>
      intro h
      simp only [replayTile, List.foldl_cons]
      exact ih _ (updateTile_height_nonneg cfg tk u h)
  exact step _ _ h0

/-- Witness for C7 at a concrete configuration, note and schedule. -/
theorem tile_height_nonneg_witness :
    (0 : ℚ) < 1 ∧ (0 : ℚ) ≤ 1 ∧ (1 : ℚ) < 13 ∧
      0 ≤ (replayTile (Cfg.mk 100 10 1 1 "green" false) [0, 2, 4, 6]
        (createTile (Cfg.mk 100 10 1 1 "green" false)
          (Rect.mk 0 0 1 10 "white" 1) (Note.mk 60 1 13 100))).rect.height :=
  ⟨by norm_num, by norm_num, by norm_num,
    tile_height_nonneg (Cfg.mk 100 10 1 1 "green" false)
      (Rect.mk 0 0 1 10 "white" 1) (Note.mk 60 1 13 100) [0, 2, 4, 6]
      (by norm_num) (by norm_num) (by norm_num)⟩

/-! ### Concrete example data used by witnesses and counterexamples:
video_height 100, kb_top 10, tile_velocity 1, ticks_per_sec 1,
ticks_per_frame 2, one note with start tick 1 and end tick 13. -/

def cfgEx : Cfg := Cfg.mk 100 10 1 1 "green" false

def keyRectEx : Rect := Rect.mk 0 0 1 10 "white" 1

def noteEx : Note := Note.mk 60 1 13 100

def tileEx : Tile := createTile cfgEx keyRectEx noteEx

def replayedEx : Tile := replayTile cfgEx (schedule 2 2) tileEx

lemma tileEx_eval : tileEx = Tile.mk 0 (Rect.mk 0 11 1 12 "green" 1) false 11 12 := by
  norm_num [tileEx, createTile, start_y_pos, end_y_pos, cfgEx, keyRectEx, noteEx]

lemma replayedEx_eval :
    replayedEx = Tile.mk 1 (Rect.mk 0 9 1 9 "green" 1) true 11 12 := by
  norm_num [replayedEx, replayTile, schedule, List.range_succ, tileEx_eval,
    updateTile, moveTile, transitionTile, cfgEx]

/-! ### C2: position of the falling bottom edge -/

lemma transitionTile_rect_y (cfg : Cfg) (t : Tile) :
    (transitionTile cfg t).rect.y = t.rect.y := by
  unfold transitionTile
  repeat' split
  all_goals rfl

/-- Claim C2 corrected: for a tile whose bottom edge has not yet reached the
keyboard boundary (pre-update rect.y > kb_top) and which is not DONE, the
frame update at tick sets the bottom edge y-coordinate to
kb_top + top_edge_time * tile_velocity - tile_velocity * (tick/ticks_per_sec),
where top_edge_time = start/ticks_per_sec of the originating note (the claim
stated bottom_edge_time = end/ticks_per_sec instead). -/
theorem falling_edge_position (cfg : Cfg) (n : Note) (t : Tile) (tick : ℚ)
    (hsy : t.start_y_pos = start_y_pos cfg n)
    (hst : t.state ≤ 1)
    (hy : ¬ t.rect.y ≤ cfg.kb_top) :
    (updateTile cfg tick t).rect.y
      = cfg.kb_top + (n.start / cfg.ticks_per_sec) * cfg.tile_velocity
          - cfg.tile_velocity * (tick / cfg.ticks_per_sec) := by
  unfold updateTile
  rw [transitionTile_rect_y]
  unfold moveTile
  rw [if_pos hst, if_neg hy]
  simp only [hsy, start_y_pos]
  ring

/-- Witness for the corrected C2 at a concrete tile and tick. -/
theorem falling_edge_position_witness :
    tileEx.start_y_pos = start_y_pos cfgEx noteEx ∧
      tileEx.state ≤ 1 ∧
      ¬ tileEx.rect.y ≤ cfgEx.kb_top ∧
      (updateTile cfgEx 2 tileEx).rect.y
        = cfgEx.kb_top + (noteEx.start / cfgEx.ticks_per_sec) * cfgEx.tile_velocity
            - cfgEx.tile_velocity * (2 / cfgEx.ticks_per_sec) :=
  ⟨rfl, by rw [tileEx_eval]; norm_num, by rw [tileEx_eval]; norm_num [cfgEx],
    falling_edge_position cfgEx noteEx tileEx 2 rfl
      (by rw [tileEx_eval]; norm_num) (by rw [tileEx_eval]; norm_num [cfgEx])⟩

/-- Counterexample to C2 as stated: with ticks_per_sec = 1, tile_velocity = 1,
kb_top = 10 and the note (start 1, end 13), the freshly created tile has its
bottom edge above kb_top, yet the update at tick 0 puts the bottom edge at
11 = kb_top + (start/tps)*velocity, not at
23 = kb_top + (end/tps)*velocity - velocity*(0/tps) as the claim requires. -/
theorem falling_edge_position_counterexample :
    ¬ tileEx.rect.y ≤ cfgEx.kb_top ∧
      (updateTile cfgEx 0 tileEx).rect.y
        ≠ cfgEx.kb_top + (noteEx.end_ / cfgEx.ticks_per_sec) * cfgEx.tile_velocity
            - cfgEx.tile_velocity * (0 / cfgEx.ticks_per_sec) := by
  rw [tileEx_eval]
  norm_num [updateTile, moveTile, transitionTile, cfgEx, noteEx]

/-! ### C3: clipping against the keyboard boundary -/

/-- Claim C3 corrected: once the bottom edge has reached or passed kb_top
(rect.y ≤ kb_top) and the tile is not DONE, the frame update at tick sets the
drawn height to
max 0 (initial_length - (t - top_edge_time) * tile_velocity) with
t = tick/ticks_per_sec, top_edge_time = start/ticks_per_sec and
initial_length = (end - start)/ticks_per_sec * tile_velocity; the bottom edge
is left unchanged at its frozen value (which is ≤ kb_top but in general
strictly below the boundary, not held exactly at kb_top as the claim said). -/
theorem keyboard_clipping (cfg : Cfg) (n : Note) (t : Tile) (tick : ℚ)
    (hsy : t.start_y_pos = start_y_pos cfg n)
    (hw : t.initial_w = end_y_pos cfg n - start_y_pos cfg n)
    (hst : t.state ≤ 1)
    (hy : t.rect.y ≤ cfg.kb_top) :
    (updateTile cfg tick t).rect.height
        = max 0 ((n.end_ - n.start) / cfg.ticks_per_sec * cfg.tile_velocity
            - (tick / cfg.ticks_per_sec - n.start / cfg.ticks_per_sec)
              * cfg.tile_velocity) ∧
      (updateTile cfg tick t).rect.y = t.rect.y := by
  unfold updateTile
  rw [transitionTile_rect_y]
  constructor
  · have hh : (moveTile cfg tick t).rect.height
        = max 0 (t.initial_w - cfg.kb_top + t.start_y_pos
            - cfg.tile_velocity * tick / cfg.ticks_per_sec) := by
      unfold moveTile
      rw [if_pos hst, if_pos hy]
    have harg : t.initial_w - cfg.kb_top + t.start_y_pos
          - cfg.tile_velocity * tick / cfg.ticks_per_sec
        = (n.end_ - n.start) / cfg.ticks_per_sec * cfg.tile_velocity
            - (tick / cfg.ticks_per_sec - n.start / cfg.ticks_per_sec)
              * cfg.tile_velocity := by
      rw [hsy, hw]
      simp only [start_y_pos, end_y_pos]
      ring
    have hth : (transitionTile cfg (moveTile cfg tick t)).rect.height
        = (moveTile cfg tick t).rect.height := by
      unfold transitionTile
      repeat' split
      all_goals simp
    rw [hth, hh, harg]
  · unfold moveTile
    rw [if_pos hst, if_pos hy]

/-- Witness for the corrected C3: the replayed tile of the counterexample
configuration is in keyboard contact at tick 6 with frozen bottom edge 9. -/
theorem keyboard_clipping_witness :
    replayedEx.start_y_pos = start_y_pos cfgEx noteEx ∧
      replayedEx.initial_w = end_y_pos cfgEx noteEx - start_y_pos cfgEx noteEx ∧
      replayedEx.state ≤ 1 ∧
      replayedEx.rect.y ≤ cfgEx.kb_top ∧
      ((updateTile cfgEx 6 replayedEx).rect.height
        = max 0 ((noteEx.end_ - noteEx.start) / cfgEx.ticks_per_sec
              * cfgEx.tile_velocity
            - (6 / cfgEx.ticks_per_sec - noteEx.start / cfgEx.ticks_per_sec)
              * cfgEx.tile_velocity) ∧
      (updateTile cfgEx 6 replayedEx).rect.y = replayedEx.rect.y) :=
  ⟨by rw [replayedEx_eval]; norm_num [start_y_pos, cfgEx, noteEx],
    by rw [replayedEx_eval]; norm_num [start_y_pos, end_y_pos, cfgEx, noteEx],
    by rw [replayedEx_eval],
    by rw [replayedEx_eval]; norm_num [cfgEx],
    keyboard_clipping cfgEx noteEx replayedEx 6
      (by rw [replayedEx_eval]; norm_num [start_y_pos, cfgEx, noteEx])
      (by rw [replayedEx_eval]; norm_num [start_y_pos, end_y_pos, cfgEx, noteEx])
      (by rw [replayedEx_eval])
      (by rw [replayedEx_eval]; norm_num [cfgEx])⟩

/-- Counterexample to C3 as stated: after replaying frames at ticks 0, 2, 4
(ticks_per_frame = 2, ticks_per_sec = 1, tile_velocity = 1, kb_top = 10, note
start 1, end 13), the tile is in keyboard contact (bottom edge 9 ≤ kb_top)
but the edge is frozen at 9, strictly below the boundary, and the next update
keeps it at 9 ≠ kb_top: the edge does not hold at the keyboard boundary. -/
theorem keyboard_clipping_counterexample :
    replayedEx.rect.y ≤ cfgEx.kb_top ∧
      replayedEx.state ≤ 1 ∧
      (updateTile cfgEx 6 replayedEx).rect.y ≠ cfgEx.kb_top := by
  rw [replayedEx_eval]
  norm_num [updateTile, moveTile, transitionTile, cfgEx]

/-! ### Time base and midi loading (PianoTileCreator.loadMidiFile / render) -/

/-- ticks_per_sec = ticks_per_beat * tempo / 60 (loadMidiFile line 235). -/
def ticksPerSec (tpb tempo : ℚ) : ℚ := tpb * tempo / 60

/-- ticks_per_frame = ticks_per_sec / video_fps (loadMidiFile line 238). -/
def ticksPerFrame (tps fps : ℚ) : ℚ := tps / fps

/-- Python int(): truncation towards zero. -/
def pyInt (q : ℚ) : ℤ := if 0 ≤ q then ⌊q⌋ else ⌈q⌉

/-- The frame count of PianoTileCreator.render:
int(total_duration * video_fps) + 2. -/
def numFrames (dur fps : ℚ) : ℤ := pyInt (dur * fps) + 2

/-- The tick supplied to frame i: tick = i * ticks_per_frame (render line 266). -/
def frameTick (tpf : ℚ) (i : ℕ) : ℚ := (i : ℚ) * tpf

/-- The full list of ticks the render loop iterates over
(trange(0, int(total_duration * vid_fps) + 2)). -/
def renderTicks (dur fps tpf : ℚ) : List ℚ :=
  (List.range (numFrames dur fps).toNat).map (fun i => frameTick tpf i)

/-- The sort key order of loadMidiFile line 232: key = (n.start, -n.pitch),
as a total preorder used by the stable sort. -/
def noteOrd (a b : Note) : Prop :=
  a.start < b.start ∨ (a.start = b.start ∧ -a.pitch ≤ -b.pitch)

instance : DecidableRel noteOrd := fun _ _ =>
  inferInstanceAs (Decidable (_ ∨ _))

/-- The state loadMidiFile leaves behind on success. -/
structure MidiState where
  ticks_per_sec : ℚ
  total_duration : ℚ
  ticks_per_frame : ℚ
  all_notes : List Note
deriving DecidableEq

/-- PianoTileCreator.loadMidiFile, after the external midi parse: collects the
notes, sorts them by (start, -pitch), derives the time base, and computes
total_duration = all_notes[-1].end / ticks_per_sec.  The Python expression
all_notes[-1] raises an unhandled IndexError on an empty note list; this is
modelled by the error branch on getLast? - there is no explicit emptiness
check anywhere before it. -/
def loadMidi (tpb tempo fps : ℚ) (notes : List Note) : Except String MidiState :=
  let all_notes := List.insertionSort noteOrd notes
  let tps := ticksPerSec tpb tempo
  match all_notes.getLast? with
  | none => Except.error "IndexError: list index out of range"
  | some lastN =>
      Except.ok
        { ticks_per_sec := tps
          total_duration := lastN.end_ / tps
          ticks_per_frame := ticksPerFrame tps fps
          all_notes := all_notes }

/-! ### C4: empty input is not rejected explicitly -/

/-- Claim C4 (a code bug): loading an empty note list is NOT rejected
explicitly; the computation runs straight into the naive total-duration
expression all_notes[-1].end, whose index access fails (an unhandled
IndexError in the Python source).  This theorem evaluates the load at the
failing input. -/
theorem empty_input_not_rejected :
    loadMidi 480 120 30 [] = Except.error "IndexError: list index out of range" :=
  rfl

/-! ### C8: time base, duration, frame count and frame ticks -/

lemma insertionSort_ne_nil (r : Note → Note → Prop) [DecidableRel r]
    (notes : List Note) (h : notes ≠ []) : List.insertionSort r notes ≠ [] := by
  intro hs
  exact h (List.eq_nil_of_length_eq_zero
    (by rw [← List.length_insertionSort r notes, hs, List.length_nil]))

/-- Claim C8: for a non-empty note list, loading succeeds and yields
ticks_per_sec = ticks_per_beat * tempo / 60 and
ticks_per_frame = ticks_per_sec / video_fps; the total duration is the last
(sorted) note's end tick divided by ticks_per_sec; when duration * fps is
non-negative the driver runs exactly floor(duration * fps) + 2 frames, frame
i using tick i * ticks_per_frame; and in the spec's example scenario
ticks_per_beat = 480, tempo = 120 give ticks_per_sec = 960, and
video_fps = 30 gives ticks_per_frame = 32. -/
theorem time_base_contract (tpb tempo fps : ℚ) (notes : List Note)
    (h : notes ≠ []) :
    ∃ s : MidiState, loadMidi tpb tempo fps notes = Except.ok s ∧
      s.ticks_per_sec = tpb * tempo / 60 ∧
      s.ticks_per_frame = s.ticks_per_sec / fps ∧
      (∃ lastN : Note, s.all_notes.getLast? = some lastN ∧
        s.total_duration = lastN.end_ / s.ticks_per_sec) ∧
      (0 ≤ s.total_duration * fps →
        (renderTicks s.total_duration fps s.ticks_per_frame).length
          = (⌊s.total_duration * fps⌋ + 2).toNat) ∧
      (∀ i : ℕ, i < (renderTicks s.total_duration fps s.ticks_per_frame).length →
        (renderTicks s.total_duration fps s.ticks_per_frame).getD i 0
          = (i : ℚ) * s.ticks_per_frame) ∧
      ticksPerSec 480 120 = 960 ∧ ticksPerFrame (ticksPerSec 480 120) 30 = 32 := by
  have hne : List.insertionSort noteOrd notes ≠ [] := insertionSort_ne_nil _ _ h
  obtain ⟨lastN, hlast⟩ :
      ∃ lastN, (List.insertionSort noteOrd notes).getLast? = some lastN := by
    cases hg : (List.insertionSort noteOrd notes).getLast? with
    | none => exact absurd (List.getLast?_eq_none_iff.mp hg) hne
    | some lastN => exact ⟨lastN, rfl⟩
  refine ⟨{ ticks_per_sec := ticksPerSec tpb tempo
            total_duration := lastN.end_ / ticksPerSec tpb tempo
            ticks_per_frame := ticksPerFrame (ticksPerSec tpb tempo) fps
            all_notes := List.insertionSort noteOrd notes }, ?_, ?_, ?_, ?_, ?_, ?_, ?_, ?_⟩
  · simp only [loadMidi]
    rw [hlast]
  · rfl
  · rfl
  · exact ⟨lastN, hlast, rfl⟩
  · intro hnn
    simp only [renderTicks, List.length_map, List.length_range, numFrames, pyInt,
      if_pos hnn]
  · intro i hi
    simp only [renderTicks, List.length_map, List.length_range] at hi
    simp [renderTicks, List.getD_eq_getElem?_getD, List.getElem?_map,
      List.getElem?_range, hi, frameTick]
  · norm_num [ticksPerSec]
  · norm_num [ticksPerSec, ticksPerFrame]

/-- Witness for C8 in the spec's example scenario: ticks_per_beat 480,
tempo 120, fps 30, one note (pitch 60, ticks 0..960). -/
theorem time_base_contract_witness :
    ([Note.mk 60 0 960 100] : List Note) ≠ [] ∧
      (∃ s : MidiState, loadMidi 480 120 30 [Note.mk 60 0 960 100] = Except.ok s ∧
        s.ticks_per_sec = 480 * 120 / 60 ∧
        s.ticks_per_frame = s.ticks_per_sec / 30 ∧
        (∃ lastN : Note, s.all_notes.getLast? = some lastN ∧
          s.total_duration = lastN.end_ / s.ticks_per_sec) ∧
        (0 ≤ s.total_duration * 30 →
          (renderTicks s.total_duration 30 s.ticks_per_frame).length
            = (⌊s.total_duration * 30⌋ + 2).toNat) ∧
        (∀ i : ℕ, i < (renderTicks s.total_duration 30 s.ticks_per_frame).length →
          (renderTicks s.total_duration 30 s.ticks_per_frame).getD i 0
            = (i : ℚ) * s.ticks_per_frame) ∧
        ticksPerSec 480 120 = 960 ∧ ticksPerFrame (ticksPerSec 480 120) 30 = 32) :=
  ⟨by simp, time_base_contract 480 120 30 [Note.mk 60 0 960 100] (by simp)⟩

/-! ### C9: pitch routing (loadMidiFile lines 246-250) -/

/-- One iteration of the note-distribution loop of loadMidiFile: a note with
pitch in [21, 108] is appended to the notes of key number pitch - 21; any
other note is skipped without error. -/
def addNote (keys : List (List Note)) (n : Note) : List (List Note) :=
  if 21 ≤ n.pitch ∧ n.pitch ≤ 108 then
    keys.set (n.pitch - 21).toNat (keys.getD (n.pitch - 21).toNat [] ++ [n])
  else keys

/-- The note-distribution loop over the initial 88 empty key note lists. -/
def distributeNotes (notes : List Note) : List (List Note) :=
  notes.foldl addNote (List.replicate 88 ([] : List Note))

lemma addNote_length (keys : List (List Note)) (n : Note) :
    (addNote keys n).length = keys.length := by
  unfold addNote
  split
  · exact List.length_set keys _ _
  · rfl

lemma foldl_addNote_getD (notes : List Note) :
    ∀ (acc : List (List Note)), acc.length = 88 → ∀ i : ℕ, i < 88 →
      (notes.foldl addNote acc).getD i []
        = acc.getD i []
            ++ notes.filter (fun m => decide (m.pitch = 21 + (i : ℤ))) := by
  induction notes with
  | nil => intro acc _ i _; simp
  | cons n rest ih =>
    intro acc hlen i hi
    rw [List.foldl_cons,
      ih (addNote acc n) (by rw [addNote_length, hlen]) i hi, List.filter_cons]
    by_cases hp : 21 ≤ n.pitch ∧ n.pitch ≤ 108
    · by_cases hij : (n.pitch - 21).toNat = i
      · have hpitch : n.pitch = 21 + (i : ℤ) := by omega
        have hset : (addNote acc n).getD i [] = acc.getD i [] ++ [n] := by
          unfold addNote
          rw [if_pos hp, hij]
          have hilen : i < acc.length := by omega
          simp [List.getD_eq_getElem?_getD, List.getElem?_set_self hilen]
        rw [hset, if_pos (by simpa using hpitch)]
        simp
      · have hpitch : ¬ n.pitch = 21 + (i : ℤ) := by omega
        have hset : (addNote acc n).getD i [] = acc.getD i [] := by
          unfold addNote
          rw [if_pos hp]
          simp [List.getD_eq_getElem?_getD, List.getElem?_set_ne hij]
        rw [hset, if_neg (by simpa using hpitch)]
    · have hpitch : ¬ n.pitch = 21 + (i : ℤ) := by omega
      have hskip : addNote acc n = acc := by
        unfold addNote
        rw [if_neg hp]
      rw [hskip, if_neg (by simpa using hpitch)]

lemma distributeNotes_getD (notes : List Note) (i : ℕ) (hi : i < 88) :
    (distributeNotes notes).getD i []
      = notes.filter (fun m => decide (m.pitch = 21 + (i : ℤ))) := by
  rw [distributeNotes,
    foldl_addNote_getD notes (List.replicate 88 []) (by simp) i hi]
  have hrep : (List.replicate 88 ([] : List Note)).getD i [] = [] := by
    rw [List.getD_eq_getElem?_getD, List.getElem?_replicate]
    rw [if_pos hi]
    rfl
  rw [hrep, List.nil_append]

/-- Claim C9: a note with pitch in [21, 108] ends up in exactly one key note
list, the one at index pitch - 21; a note with pitch outside [21, 108] ends
up in no key note list (silently dropped, never an error). -/
theorem pitch_routing (notes : List Note) (n : Note) (hmem : n ∈ notes) :
    (21 ≤ n.pitch → n.pitch ≤ 108 →
      n ∈ (distributeNotes notes).getD (n.pitch - 21).toNat [] ∧
        ∀ i : ℕ, i < 88 → (i : ℤ) ≠ n.pitch - 21 →
          n ∉ (distributeNotes notes).getD i []) ∧
    ((n.pitch < 21 ∨ 108 < n.pitch) →
      ∀ i : ℕ, i < 88 → n ∉ (distributeNotes notes).getD i []) := by
  constructor
  · intro h1 h2
    constructor
    · rw [distributeNotes_getD notes (n.pitch - 21).toNat (by omega)]
      exact List.mem_filter.mpr ⟨hmem, by simp; omega⟩
    · intro i hi hne
      rw [distributeNotes_getD notes i hi]
      intro hmemf
      have := (List.mem_filter.mp hmemf).2
      simp at this
      omega
  · intro hout i hi
    rw [distributeNotes_getD notes i hi]
    intro hmemf
    have := (List.mem_filter.mp hmemf).2
    simp at this
    omega

/-- Witness for C9: the spec's example, pitch 60 routed to index 39. -/
theorem pitch_routing_witness :
    (Note.mk 60 0 960 100) ∈ ([Note.mk 60 0 960 100] : List Note) ∧
      ((21 ≤ (Note.mk 60 0 960 100 : Note).pitch →
          (Note.mk 60 0 960 100 : Note).pitch ≤ 108 →
        (Note.mk 60 0 960 100)
            ∈ (distributeNotes [Note.mk 60 0 960 100]).getD
                ((Note.mk 60 0 960 100 : Note).pitch - 21).toNat [] ∧
          ∀ i : ℕ, i < 88 → (i : ℤ) ≠ (Note.mk 60 0 960 100 : Note).pitch - 21 →
            (Note.mk 60 0 960 100)
              ∉ (distributeNotes [Note.mk 60 0 960 100]).getD i []) ∧
      (((Note.mk 60 0 960 100 : Note).pitch < 21 ∨
          108 < (Note.mk 60 0 960 100 : Note).pitch) →
        ∀ i : ℕ, i < 88 →
          (Note.mk 60 0 960 100) ∉ (distributeNotes [Note.mk 60 0 960 100]).getD i [])) :=
  ⟨List.mem_singleton.mpr rfl,
    pitch_routing [Note.mk 60 0 960 100] (Note.mk 60 0 960 100)
      (List.mem_singleton.mpr rfl)⟩

/-! ### The KB_key object and its per-frame update -/

/-- A KB_key object: midi number, the key patch rectangle, sharp flag,
assigned notes, and the tile list built by createTiles. -/
structure KB_key where
  midi_num : ℤ
  rect : Rect
  isSharp : Bool
  notes : List Note
  tiles : List Tile
deriving DecidableEq

/-- KB_key.__init__ followed by createTiles over the assigned notes. -/
def mkKBKey (cfg : Cfg) (midi : ℤ) (rect : Rect) (isSharp : Bool)
    (notes : List Note) : KB_key :=
  { midi_num := midi, rect := rect, isSharp := isSharp, notes := notes,
    tiles := createTiles cfg rect notes }

/-- current_note of KB_key.update line 96:
notes with start <= tick and end > tick. -/
def currentNotes (tick : ℚ) (notes : List Note) : List Note :=
  notes.filter (fun n => decide (n.start ≤ tick ∧ n.end_ > tick))

/-- KB_key.update: update every tile, then recolor the key patch from the
currently sounding notes (lines 75-108 of pianoTileCreator.py). -/
def updateKey (cfg : Cfg) (tick : ℚ) (k : KB_key) : KB_key :=
  let tiles := k.tiles.map (updateTile cfg tick)
  let rect :=
    match currentNotes tick k.notes with
    | c :: _ =>
        let r := { k.rect with facecolor := cfg.key_color }
        if cfg.showKeyVelocity then { r with alpha := c.velocity / 127 } else r
    | [] =>
        let r := if cfg.showKeyVelocity then { k.rect with alpha := 1 } else k.rect
        if k.isSharp then { r with facecolor := "black" }
        else { r with facecolor := "white" }
  { k with tiles := tiles, rect := rect }

/-- Replaying KB_key.update over a list of frame ticks. -/
def replayKey (cfg : Cfg) (ticks : List ℚ) (k : KB_key) : KB_key :=
  ticks.foldl (fun acc tk => updateKey cfg tk acc) k

/-- The rendered observables of one key: its patch rectangle (position, size,
facecolor, alpha) and all its tile rectangles with their states. -/
def keyObs (k : KB_key) : Rect × List Tile := (k.rect, k.tiles)

/-! ### C10: with showKeyVelocity disabled the output ignores velocities -/

/-- Two notes that agree except possibly in velocity. -/
def sameButVelocity (a b : Note) : Prop :=
  a.pitch = b.pitch ∧ a.start = b.start ∧ a.end_ = b.end_

lemma createTile_velocity_indep (cfg : Cfg) (rect : Rect) (a b : Note)
    (hsv : cfg.showKeyVelocity = false) (hab : sameButVelocity a b) :
    createTile cfg rect a = createTile cfg rect b := by
  obtain ⟨_, hs, he⟩ := hab
  simp [createTile, start_y_pos, end_y_pos, hsv, hs, he]

lemma createTiles_velocity_indep (cfg : Cfg) (rect : Rect)
    (notes₁ notes₂ : List Note) (hsv : cfg.showKeyVelocity = false)
    (hrel : List.Forall₂ sameButVelocity notes₁ notes₂) :
    createTiles cfg rect notes₁ = createTiles cfg rect notes₂ := by
  induction hrel with
  | nil => rfl
  | cons hab _ ih =>
    simp only [createTiles, List.map_cons] at ih ⊢
    rw [createTile_velocity_indep cfg rect _ _ hsv hab, ih]

lemma currentNotes_velocity_indep (tick : ℚ) (notes₁ notes₂ : List Note)
    (hrel : List.Forall₂ sameButVelocity notes₁ notes₂) :
    List.Forall₂ sameButVelocity (currentNotes tick notes₁)
      (currentNotes tick notes₂) := by
  induction hrel with
  | nil => exact List.Forall₂.nil
  | cons hab hr ih =>
    rename_i a b l₁ l₂
    obtain ⟨hp, hs, he⟩ := hab
    simp only [currentNotes, List.filter_cons] at ih ⊢
    rw [hs, he]
    split
    · exact List.Forall₂.cons ⟨hp, hs, he⟩ ih
    · exact ih

lemma updateKey_velocity_indep (cfg : Cfg) (tick : ℚ) (k₁ k₂ : KB_key)
    (hsv : cfg.showKeyVelocity = false)
    (hrect : k₁.rect = k₂.rect) (htiles : k₁.tiles = k₂.tiles)
    (hsharp : k₁.isSharp = k₂.isSharp)
    (hrel : List.Forall₂ sameButVelocity k₁.notes k₂.notes) :
    (updateKey cfg tick k₁).rect = (updateKey cfg tick k₂).rect ∧
      (updateKey cfg tick k₁).tiles = (updateKey cfg tick k₂).tiles := by
  have hcur := currentNotes_velocity_indep tick k₁.notes k₂.notes hrel
  constructor
  · simp only [updateKey]
    cases hc1 : currentNotes tick k₁.notes with
    | nil =>
      rw [hc1] at hcur
      have hc2 : currentNotes tick k₂.notes = [] :=
        List.forall₂_nil_left_iff.mp hcur
      rw [hc2, hrect, hsharp]
    | cons c l =>
      rw [hc1] at hcur
      obtain ⟨c2, l2, _, _, hc2⟩ := List.forall₂_cons_left_iff.mp hcur
      rw [hc2, hrect]
      simp [hsv]
  · simp only [updateKey, htiles]

/-- Claim C10: when showKeyVelocity is disabled, the rendered output is
independent of note velocities: for any two note lists identical except in
their velocity values, the key patch rectangle (highlight color and opacity)
and every tile rectangle and state coincide after every sequence of frame
updates, and every tile opacity is fixed at 1. -/
theorem velocity_opacity_independence (cfg : Cfg) (midi : ℤ) (rect : Rect)
    (isSharp : Bool) (notes₁ notes₂ : List Note) (ticks : List ℚ)
    (hsv : cfg.showKeyVelocity = false)
    (hrel : List.Forall₂ sameButVelocity notes₁ notes₂) :
    keyObs (replayKey cfg ticks (mkKBKey cfg midi rect isSharp notes₁))
        = keyObs (replayKey cfg ticks (mkKBKey cfg midi rect isSharp notes₂)) ∧
      ∀ t ∈ (replayKey cfg ticks (mkKBKey cfg midi rect isSharp notes₁)).tiles,
        t.rect.alpha = 1 := by
  have hinv : ∀ (l : List ℚ) (k₁ k₂ : KB_key),
      k₁.rect = k₂.rect → k₁.tiles = k₂.tiles → k₁.isSharp = k₂.isSharp →
      List.Forall₂ sameButVelocity k₁.notes k₂.notes →
      (replayKey cfg l k₁).rect = (replayKey cfg l k₂).rect ∧
        (replayKey cfg l k₁).tiles = (replayKey cfg l k₂).tiles := by
    intro l
    induction l with
    | nil => intro k₁ k₂ h1 h2 _ _; exact ⟨h1, h2⟩
    | cons tk rest ih =>
      intro k₁ k₂ h1 h2 h3 h4
      simp only [replayKey, List.foldl_cons]
      have hstep := updateKey_velocity_indep cfg tk k₁ k₂ hsv h1 h2 h3 h4
      exact ih (updateKey cfg tk k₁) (updateKey cfg tk k₂) hstep.1 hstep.2
        (by simp [updateKey, h3]) (by simpa [updateKey] using h4)
  have halpha : ∀ (l : List ℚ) (k : KB_key),
      (∀ t ∈ k.tiles, t.rect.alpha = 1) →
      ∀ t ∈ (replayKey cfg l k).tiles, t.rect.alpha = 1 := by
    intro l
    induction l with
    | nil => intro k hk; exact hk
    | cons tk rest ih =>
      intro k hk
      simp only [replayKey, List.foldl_cons]
      refine ih (updateKey cfg tk k) ?_
      intro t ht
      simp only [updateKey, List.mem_map] at ht
      obtain ⟨u, hu, hut⟩ := ht
      have hua : (updateTile cfg tk u).rect.alpha = u.rect.alpha := by
        unfold updateTile transitionTile moveTile
        repeat' split
        all_goals rfl
      rw [← hut, hua]
      exact hk u hu
  constructor
  · have := hinv ticks (mkKBKey cfg midi rect isSharp notes₁)
      (mkKBKey cfg midi rect isSharp notes₂) rfl
      (by simpa [mkKBKey] using createTiles_velocity_indep cfg rect notes₁ notes₂ hsv hrel)
      rfl (by simpa [mkKBKey] using hrel)
    simp only [keyObs]
    rw [this.1, this.2]
  · refine halpha ticks _ ?_
    intro t ht
    simp only [mkKBKey, createTiles, List.mem_map] at ht
    obtain ⟨n, _, hnt⟩ := ht
    rw [← hnt]
    simp [createTile, hsv]

/-- Witness for C10: two single-note lists differing only in velocity,
replayed over two frames, yield identical observables and tile opacity 1. -/
theorem velocity_opacity_independence_witness :
    (Cfg.mk 100 10 1 1 "green" false).showKeyVelocity = false ∧
      (keyObs (replayKey (Cfg.mk 100 10 1 1 "green" false) [0, 2]
            (mkKBKey (Cfg.mk 100 10 1 1 "green" false) 60 (Rect.mk 0 0 1 10 "white" 1)
              false [Note.mk 60 1 13 100]))
          = keyObs (replayKey (Cfg.mk 100 10 1 1 "green" false) [0, 2]
            (mkKBKey (Cfg.mk 100 10 1 1 "green" false) 60 (Rect.mk 0 0 1 10 "white" 1)
              false [Note.mk 60 1 13 7])) ∧
        ∀ t ∈ (replayKey (Cfg.mk 100 10 1 1 "green" false) [0, 2]
            (mkKBKey (Cfg.mk 100 10 1 1 "green" false) 60 (Rect.mk 0 0 1 10 "white" 1)
              false [Note.mk 60 1 13 100])).tiles,
          t.rect.alpha = 1) :=
  ⟨rfl, velocity_opacity_independence (Cfg.mk 100 10 1 1 "green" false) 60
    (Rect.mk 0 0 1 10 "white" 1) false [Note.mk 60 1 13 100] [Note.mk 60 1 13 7]
    [0, 2] rfl (List.Forall₂.cons ⟨rfl, rfl, rfl⟩ List.Forall₂.nil)⟩

/-! ### C1: is the tile state a pure function of the tick? -/

/-- The bottom-edge position the position-update branch computes at frame k
(tick = k * ticks_per_frame): start_y_pos - velocity * tick / ticks_per_sec. -/
def y_at (cfg : Cfg) (n : Note) (tpf : ℚ) (k : ℕ) : ℚ :=
  start_y_pos cfg n - cfg.tile_velocity * ((k : ℚ) * tpf) / cfg.ticks_per_sec

/-- The tile of note n while it is still falling (bottom edge above kb_top
throughout): bottom edge at y, full initial height, state 1 and drawn as soon
as the edge is inside the visible frame. -/
def fallingTile (cfg : Cfg) (keyRect : Rect) (n : Note) (y : ℚ) : Tile :=
  let base := createTile cfg keyRect n
  if y ≤ cfg.video_height then
    { base with state := 1, drawn := true, rect := { base.rect with y := y } }
  else
    { base with rect := { base.rect with y := y } }

lemma updateTile_create (cfg : Cfg) (keyRect : Rect) (n : Note) (tick : ℚ)
    (hprev : ¬ start_y_pos cfg n ≤ cfg.kb_top) :
    updateTile cfg tick (createTile cfg keyRect n)
      = fallingTile cfg keyRect n
          (start_y_pos cfg n - cfg.tile_velocity * tick / cfg.ticks_per_sec) := by
  unfold updateTile moveTile transitionTile createTile fallingTile
  simp only [hprev]
  norm_num
  split
  · simp_all [createTile]
  · simp_all [createTile]

lemma updateTile_falling (cfg : Cfg) (keyRect : Rect) (n : Note)
    (yprev tick : ℚ)
    (hw : 0 < end_y_pos cfg n - start_y_pos cfg n)
    (hprev : ¬ yprev ≤ cfg.kb_top)
    (hmono : start_y_pos cfg n - cfg.tile_velocity * tick / cfg.ticks_per_sec
              ≤ yprev) :
    updateTile cfg tick (fallingTile cfg keyRect n yprev)
      = fallingTile cfg keyRect n
          (start_y_pos cfg n - cfg.tile_velocity * tick / cfg.ticks_per_sec) := by
  by_cases hvis : yprev ≤ cfg.video_height
  · have hvis2 : start_y_pos cfg n - cfg.tile_velocity * tick / cfg.ticks_per_sec
        ≤ cfg.video_height := le_trans hmono hvis
    unfold fallingTile updateTile moveTile transitionTile createTile
    simp only [hvis, if_true]
    norm_num [hprev] <;> (split_ifs <;> first | rfl | (exfalso; linarith))
  · unfold fallingTile updateTile moveTile transitionTile createTile
    simp only [hvis, if_false]
    norm_num [hprev] <;> (split_ifs <;> first | rfl | (exfalso; linarith))

lemma replayTile_append (cfg : Cfg) (l₁ l₂ : List ℚ) (t : Tile) :
    replayTile cfg (l₁ ++ l₂) t = replayTile cfg l₂ (replayTile cfg l₁ t) :=
  List.foldl_append _ _ l₁ l₂

lemma replayTile_singleton (cfg : Cfg) (x : ℚ) (t : Tile) :
    replayTile cfg [x] t = updateTile cfg x t := rfl

lemma schedule_succ (tpf : ℚ) (m : ℕ) :
    schedule tpf (m + 1) = schedule tpf m ++ [((m + 1 : ℕ) : ℚ) * tpf] := by
  unfold schedule
  rw [List.range_succ, List.map_append, List.map_singleton]

lemma y_at_mono (cfg : Cfg) (n : Note) (tpf : ℚ) (m : ℕ)
    (htps : 0 < cfg.ticks_per_sec) (hv : 0 ≤ cfg.tile_velocity)
    (htpf : 0 ≤ tpf) :
    y_at cfg n tpf (m + 1) ≤ y_at cfg n tpf m := by
  unfold y_at
  have hle : (m : ℚ) * tpf ≤ ((m + 1 : ℕ) : ℚ) * tpf := by
    apply mul_le_mul_of_nonneg_right _ htpf
    push_cast
    linarith
  have h2 : cfg.tile_velocity * ((m : ℚ) * tpf)
      ≤ cfg.tile_velocity * (((m + 1 : ℕ) : ℚ) * tpf) :=
    mul_le_mul_of_nonneg_left hle hv
  have h3 := (div_le_div_right htps).mpr h2
  linarith

lemma replay_falling_char (cfg : Cfg) (keyRect : Rect) (n : Note) (tpf : ℚ)
    (htps : 0 < cfg.ticks_per_sec) (hv : 0 ≤ cfg.tile_velocity)
    (htpf : 0 ≤ tpf)
    (hw : 0 < end_y_pos cfg n - start_y_pos cfg n) :
    ∀ m : ℕ, (∀ k : ℕ, k ≤ m → cfg.kb_top < y_at cfg n tpf k) →
      replayTile cfg (schedule tpf m) (createTile cfg keyRect n)
        = fallingTile cfg keyRect n (y_at cfg n tpf m) := by
  intro m
  induction m with
  | zero =>
    intro hcross
    have h0 : ¬ start_y_pos cfg n ≤ cfg.kb_top := by
      have := hcross 0 (le_refl 0)
      unfold y_at at this
      push_cast at this
      intro hle
      rw [zero_mul, mul_zero, zero_div, sub_zero] at this
      linarith
    have hsched : schedule tpf 0 = [((0 : ℕ) : ℚ) * tpf] := rfl
    rw [hsched, replayTile_singleton]
    exact updateTile_create cfg keyRect n (((0 : ℕ) : ℚ) * tpf) h0
  | succ m ih =>
    intro hcross
    rw [schedule_succ, replayTile_append,
      ih (fun k hk => hcross k (le_trans hk (Nat.le_succ m)))]
    have hprev : ¬ y_at cfg n tpf m ≤ cfg.kb_top := by
      have := hcross m (Nat.le_succ m)
      linarith
    exact updateTile_falling cfg keyRect n _ _ hw hprev
      (y_at_mono cfg n tpf m htps hv htpf)

/-- Claim C1 corrected: a tile's (phase, drawn_y, drawn_height) is a pure
function of the tick T = m * ticks_per_frame only up to the first schedule
tick at which the tile's bottom edge reaches kb_top: as long as the bottom
edge is strictly above kb_top at every earlier frame of the schedule, a
single update from the initial state at T agrees with the frame-by-frame
replay at ticks 0, tpf, ..., T.  (Beyond the crossing they diverge: replay
freezes the bottom edge and shrinks the height, while a single update from
the initial state moves the edge and keeps the full height; see the
counterexample.) -/
theorem tick_purity_before_crossing (cfg : Cfg) (keyRect : Rect) (n : Note)
    (tpf : ℚ) (m : ℕ)
    (htps : 0 < cfg.ticks_per_sec) (hv : 0 < cfg.tile_velocity)
    (htpf : 0 ≤ tpf) (hse : n.start < n.end_)
    (hcross : ∀ k : ℕ, k < m → cfg.kb_top < y_at cfg n tpf k) :
    tileObs (updateTile cfg ((m : ℚ) * tpf) (createTile cfg keyRect n))
      = tileObs (replayTile cfg (schedule tpf m) (createTile cfg keyRect n)) := by
  have hw : 0 < end_y_pos cfg n - start_y_pos cfg n := by
    unfold end_y_pos start_y_pos
    have hnum : 0 < (n.end_ - n.start) / cfg.ticks_per_sec :=
      div_pos (by linarith) htps
    have := mul_pos hnum hv
    ring_nf
    ring_nf at this
    linarith
  cases m with
  | zero => rfl
  | succ m =>
    have h0 : ¬ start_y_pos cfg n ≤ cfg.kb_top := by
      have := hcross 0 (Nat.succ_pos m)
      unfold y_at at this
      push_cast at this
      intro hle
      rw [zero_mul, mul_zero, zero_div, sub_zero] at this
      linarith
    rw [schedule_succ, replayTile_append,
      replay_falling_char cfg keyRect n tpf htps hv.le htpf hw m
        (fun k hk => hcross k (Nat.lt_succ_of_le hk)),
      replayTile_singleton,
      updateTile_falling cfg keyRect n _ _ hw
        (by have := hcross m (Nat.lt_succ_self m); linarith)
        (y_at_mono cfg n tpf m htps hv.le htpf),
      updateTile_create cfg keyRect n _ h0]

/-- Witness for the corrected C1: one frame step before the crossing, direct
computation and replay agree. -/
theorem tick_purity_before_crossing_witness :
    (0 : ℚ) < cfgEx.ticks_per_sec ∧ (0 : ℚ) < cfgEx.tile_velocity ∧
      (0 : ℚ) ≤ 2 ∧ noteEx.start < noteEx.end_ ∧
      (∀ k : ℕ, k < 1 → cfgEx.kb_top < y_at cfgEx noteEx 2 k) ∧
      tileObs (updateTile cfgEx (((1 : ℕ) : ℚ) * 2) (createTile cfgEx keyRectEx noteEx))
        = tileObs (replayTile cfgEx (schedule 2 1) (createTile cfgEx keyRectEx noteEx)) :=
  ⟨by norm_num [cfgEx], by norm_num [cfgEx], by norm_num,
    by norm_num [noteEx],
    by
      intro k hk
      interval_cases k
      norm_num [y_at, start_y_pos, cfgEx, noteEx],
    tick_purity_before_crossing cfgEx keyRectEx noteEx 2 1
      (by norm_num [cfgEx]) (by norm_num [cfgEx]) (by norm_num)
      (by norm_num [noteEx])
      (by
        intro k hk
        interval_cases k
        norm_num [y_at, start_y_pos, cfgEx, noteEx])⟩

/-- Counterexample to C1 as stated: at frame 2 of the example schedule
(tick 4 = 2 * ticks_per_frame), a single update from the initial state gives
(phase, drawn_y, drawn_height) = (1, 7, 12) while the frame-by-frame replay
through ticks 0, 2, 4 gives (1, 9, 9): the tile state is not a pure function
of the tick. -/
theorem tick_purity_counterexample :
    tileObs (updateTile cfgEx (((2 : ℕ) : ℚ) * 2) (createTile cfgEx keyRectEx noteEx))
      ≠ tileObs (replayTile cfgEx (schedule 2 2) (createTile cfgEx keyRectEx noteEx)) := by
  have hrep := replayedEx_eval
  unfold replayedEx tileEx at hrep
  rw [hrep]
  rw [show createTile cfgEx keyRectEx noteEx
      = Tile.mk 0 (Rect.mk 0 11 1 12 "green" 1) false 11 12 from tileEx_eval]
  norm_num [tileObs, updateTile, moveTile, transitionTile, cfgEx]

/-! ### The keyboard layout builder (PianoTileCreator.init_keys) -/

/-- white_key_width = video_width / 52 (init_keys line 178). -/
def white_key_width (vw : ℚ) : ℚ := vw / 52

/-- The 52 white key rectangles (init_keys lines 180-184). -/
def whiteKeys (vw kb_top : ℚ) : List Rect :=
  (List.range 52).map (fun x : ℕ =>
    Rect.mk ((x : ℚ) * white_key_width vw) 0 (white_key_width vw) kb_top "white" 1)

/-- The black key offset pattern (init_keys line 186). -/
def black_key_pattern : List ℚ := [1669/100, 0, 1397/100, 1679/100, 0, 1283/100, 1476/100]

/-- The offsets scaled by white_key_width / 22.15 (init_keys lines 187-188). -/
def scaled_black_key_pattern (vw : ℚ) : List ℚ :=
  black_key_pattern.map (fun p => p / (2215/100) * white_key_width vw)

/-- black_key_height = kb_top * 80 / 126.27 (init_keys line 189). -/
def black_key_height (kb_top : ℚ) : ℚ := kb_top * 80 / (12627/100)

/-- black_key_width = white_key_width * 11 / 22.15 (init_keys line 190). -/
def black_key_width (vw : ℚ) : ℚ := white_key_width vw * 11 / (2215/100)

/-- The black key rectangles: one for each x in 0..50 whose (scaled) pattern
entry is truthy, i.e. nonzero (init_keys lines 191-198). -/
def blackKeys (vw kb_top : ℚ) : List Rect :=
  (List.range 51).filterMap (fun x : ℕ =>
    if (scaled_black_key_pattern vw).getD (x % (scaled_black_key_pattern vw).length) 0 ≠ 0 then
      some (Rect.mk
        ((x : ℚ) * white_key_width vw
          + (scaled_black_key_pattern vw).getD (x % (scaled_black_key_pattern vw).length) 0)
        (kb_top - black_key_height kb_top)
        (black_key_width vw) (black_key_height kb_top) "black" 1)
    else none)

/-- all_key_rects before sorting (whites then blacks, in creation order). -/
def allKeyRects (vw kb_top : ℚ) : List Rect :=
  whiteKeys vw kb_top ++ blackKeys vw kb_top

/-- all_key_rects sorted by x-position (init_keys line 200); Python sorted is
a stable sort, modelled by insertion sort. -/
def sortedKeyRects (vw kb_top : ℚ) : List Rect :=
  List.insertionSort (fun a b : Rect => a.x ≤ b.x) (allKeyRects vw kb_top)

/-- init_keys lines 202-213: the i-th rectangle in x-order becomes the key
with midi number 21 + i; a key is sharp iff its width is below the white key
width; note lists start empty. -/
def initKeys (cfg : Cfg) (vw : ℚ) : List KB_key :=
  (sortedKeyRects vw cfg.kb_top).enum.map
    (fun p => mkKBKey cfg (21 + (p.1 : ℤ)) p.2
      (decide (p.2.width < white_key_width vw)) [])

/-! ### C5: the x-positions of the 88 keys, their order, and overlaps -/

/-- The key x-positions divided by the video width, whites then blacks:
every x-position of allKeyRects is (base entry) * video_width. -/
def baseXs : List ℚ :=
  (List.range 52).map (fun x : ℕ => (x : ℚ) / 52)
    ++ (List.range 51).filterMap (fun x : ℕ =>
        if black_key_pattern.getD (x % 7) 0 ≠ 0 then
          some (((x : ℚ) + black_key_pattern.getD (x % 7) 0 / (2215/100)) / 52)
        else none)

/-- baseXs sorted in increasing order. -/
def baseXsSorted : List ℚ := [0, 1669/115180, 1/52, 1/26, 5827/115180, 3/52, 2081/28795, 1/13, 5/52, 6179/57590, 3/26, 7383/57590, 7/52, 8587/57590, 2/13, 9/52, 5333/28795, 5/26, 1833/8860, 11/52, 3/13, 27863/115180, 1/4, 30271/115180, 7/26, 32679/115180, 15/52, 4/13, 36837/115180, 17/52, 19667/57590, 9/26, 19/52, 834/2215, 5/13, 11444/28795, 21/52, 12046/28795, 11/26, 23/52, 26171/57590, 6/13, 54839/115180, 25/52, 1/2, 58873/115180, 27/52, 61281/115180, 7/13, 63689/115180, 29/52, 15/26, 5219/8860, 31/52, 17586/28795, 8/13, 33/52, 37189/57590, 17/26, 38393/57590, 35/52, 39597/57590, 9/13, 37/52, 20838/28795, 19/26, 85849/115180, 3/4, 10/13, 89883/115180, 41/52, 92291/115180, 21/26, 94699/115180, 43/52, 11/13, 98857/115180, 45/52, 50677/57590, 23/26, 47/52, 26347/28795, 12/13, 2073/2215, 49/52, 27551/28795, 25/26, 51/52]

lemma range52_eval : List.range 52 = [0, 1, 2, 3, 4, 5, 6, 7, 8, 9, 10, 11, 12, 13, 14, 15, 16, 17, 18, 19, 20, 21, 22, 23, 24, 25, 26, 27, 28, 29, 30, 31, 32, 33, 34, 35, 36, 37, 38, 39, 40, 41, 42, 43, 44, 45, 46, 47, 48, 49, 50, 51] := rfl

lemma range51_eval : List.range 51 = [0, 1, 2, 3, 4, 5, 6, 7, 8, 9, 10, 11, 12, 13, 14, 15, 16, 17, 18, 19, 20, 21, 22, 23, 24, 25, 26, 27, 28, 29, 30, 31, 32, 33, 34, 35, 36, 37, 38, 39, 40, 41, 42, 43, 44, 45, 46, 47, 48, 49, 50] := rfl

lemma patE0 : black_key_pattern[0]? = some (1669/100) := rfl

lemma patE1 : black_key_pattern[1]? = some (0) := rfl

lemma patE2 : black_key_pattern[2]? = some (1397/100) := rfl

lemma patE3 : black_key_pattern[3]? = some (1679/100) := rfl

lemma patE4 : black_key_pattern[4]? = some (0) := rfl

lemma patE5 : black_key_pattern[5]? = some (1283/100) := rfl

lemma patE6 : black_key_pattern[6]? = some (1476/100) := rfl

set_option maxRecDepth 8000 in
set_option maxHeartbeats 1000000 in
lemma baseXs_eval : baseXs = [0, 1/52, 1/26, 3/52, 1/13, 5/52, 3/26, 7/52, 2/13, 9/52, 5/26, 11/52, 3/13, 1/4, 7/26, 15/52, 4/13, 17/52, 9/26, 19/52, 5/13, 21/52, 11/26, 23/52, 6/13, 25/52, 1/2, 27/52, 7/13, 29/52, 15/26, 31/52, 8/13, 33/52, 17/26, 35/52, 9/13, 37/52, 19/26, 3/4, 10/13, 41/52, 21/26, 43/52, 11/13, 45/52, 23/26, 47/52, 12/13, 49/52, 25/26, 51/52, 1669/115180, 5827/115180, 2081/28795, 6179/57590, 7383/57590, 8587/57590, 5333/28795, 1833/8860, 27863/115180, 30271/115180, 32679/115180, 36837/115180, 19667/57590, 834/2215, 11444/28795, 12046/28795, 26171/57590, 54839/115180, 58873/115180, 61281/115180, 63689/115180, 5219/8860, 17586/28795, 37189/57590, 38393/57590, 39597/57590, 20838/28795, 85849/115180, 89883/115180, 92291/115180, 94699/115180, 98857/115180, 50677/57590, 26347/28795, 2073/2215, 27551/28795] := by
  norm_num [baseXs, range52_eval, range51_eval, List.filterMap_cons,
    patE0, patE1, patE2, patE3, patE4, patE5, patE6]

set_option maxRecDepth 8000 in
set_option maxHeartbeats 4000000 in
lemma insertionSort_baseXs :
    List.insertionSort (fun a b : ℚ => a ≤ b) baseXs = baseXsSorted := by
  rw [baseXs_eval]
  norm_num [List.insertionSort, List.orderedInsert, baseXsSorted]

set_option maxRecDepth 8000 in
set_option maxHeartbeats 1000000 in
lemma baseXsSorted_chain : List.Chain' (fun a b : ℚ => a < b) baseXsSorted := by
  norm_num [baseXsSorted, List.chain'_cons]


lemma getD_map_zero (l : List ℚ) (g : ℚ → ℚ) (hg : g 0 = 0) (i : ℕ) :
    (l.map g).getD i 0 = g (l.getD i 0) := by
  rw [List.getD_eq_getElem?_getD, List.getD_eq_getElem?_getD, List.getElem?_map]
  cases h : l[i]? with
  | none => simpa using hg.symm
  | some a => rfl

lemma xs_allKeyRects (vw kb : ℚ) (hvw : vw ≠ 0) :
    (allKeyRects vw kb).map Rect.x = baseXs.map (fun q => q * vw) := by
  unfold allKeyRects baseXs whiteKeys
  rw [List.map_append, List.map_append, List.map_map, List.map_map]
  congr 1
  · refine List.map_congr_left ?_
    intro x _
    show (x : ℚ) * white_key_width vw = (x : ℚ) / 52 * vw
    unfold white_key_width
    ring
  · unfold blackKeys
    rw [List.map_filterMap, List.map_filterMap]
    refine List.filterMap_congr ?_
    intro x _
    have hlen : (scaled_black_key_pattern vw).length = 7 := by
      simp [scaled_black_key_pattern, black_key_pattern]
    have hoff : (scaled_black_key_pattern vw).getD (x % 7) 0
        = black_key_pattern.getD (x % 7) 0 / (2215/100) * white_key_width vw := by
      unfold scaled_black_key_pattern
      refine getD_map_zero _ _ ?_ _
      norm_num
    by_cases hp : black_key_pattern.getD (x % 7) 0 = 0
    · rw [hlen, hoff, hp]
      norm_num
    · have hpnz : black_key_pattern.getD (x % 7) 0 / (2215/100) * white_key_width vw ≠ 0 := by
        unfold white_key_width
        intro hz
        rcases mul_eq_zero.mp hz with hz1 | hz2
        · exact hp (by
            rcases div_eq_zero_iff.mp hz1 with h | h
            · exact h
            · exact absurd h (by norm_num))
        · rcases div_eq_zero_iff.mp hz2 with h | h
          · exact hvw h
          · exact absurd h (by norm_num)
      rw [hlen, hoff, if_pos hpnz, if_pos hp]
      simp only [Option.map_some']
      congr 1
      show (x : ℚ) * white_key_width vw
            + black_key_pattern.getD (x % 7) 0 / (2215/100) * white_key_width vw
          = ((x : ℚ) + black_key_pattern.getD (x % 7) 0 / (2215/100)) / 52 * vw
      unfold white_key_width
      ring

lemma sortedKeyRects_xs (vw kb : ℚ) (hvw : 0 < vw) :
    (sortedKeyRects vw kb).map Rect.x = baseXsSorted.map (fun q => q * vw) := by
  have hms : ((allKeyRects vw kb).insertionSort (fun a b : Rect => a.x ≤ b.x)).map Rect.x
      = ((allKeyRects vw kb).map Rect.x).insertionSort (fun a b : ℚ => a ≤ b) :=
    List.map_insertionSort _ _ Rect.x (allKeyRects vw kb) (fun a _ b _ => Iff.rfl)
  have hms2 : (baseXs.insertionSort (fun a b : ℚ => a ≤ b)).map (fun q => q * vw)
      = (baseXs.map (fun q => q * vw)).insertionSort (fun a b : ℚ => a ≤ b) :=
    List.map_insertionSort _ _ (fun q => q * vw) baseXs
      (fun a _ b _ => (mul_le_mul_right hvw).symm)
  unfold sortedKeyRects
  rw [hms, xs_allKeyRects vw kb hvw.ne', ← hms2, insertionSort_baseXs]

lemma sortedKeyRects_length (vw kb : ℚ) (hvw : 0 < vw) :
    (sortedKeyRects vw kb).length = 88 := by
  have := congrArg List.length (sortedKeyRects_xs vw kb hvw)
  rw [List.length_map, List.length_map] at this
  rw [this]
  rfl

/-- Claim C5 corrected: for every positive video width (and any keyboard
height), the layout builder produces exactly 88 keys; key i carries midi
number 21 + i (so midi numbers 21..108 are assigned in ascending-x order);
and the keys' x-positions are strictly increasing.  The non-overlap part of
the claim is false: each sharp key rectangle overlaps its neighboring
natural key rectangles (sharps are drawn on top of the naturals); see the
counterexample. -/
theorem keyboard_layout (cfg : Cfg) (vw : ℚ) (hvw : 0 < vw) :
    (initKeys cfg vw).length = 88 ∧
      (∀ i : ℕ, (hi : i < (initKeys cfg vw).length) →
        ((initKeys cfg vw).get ⟨i, hi⟩).midi_num = 21 + (i : ℤ)) ∧
      List.Pairwise (fun a b : KB_key => a.rect.x < b.rect.x) (initKeys cfg vw) := by
  have hlenK : (initKeys cfg vw).length = 88 := by
    rw [initKeys, List.length_map, List.enum_eq_enumFrom, List.enumFrom_length]
    exact sortedKeyRects_length vw cfg.kb_top hvw
  refine ⟨hlenK, ?_, ?_⟩
  · intro i hi
    simp only [initKeys, List.get_eq_getElem, List.getElem_map,
      List.enum_eq_enumFrom, List.getElem_enumFrom, mkKBKey]
    push_cast
    ring
  · have hpw : List.Pairwise (fun a b : ℚ => a < b) baseXsSorted :=
      List.chain'_iff_pairwise.mp baseXsSorted_chain
    have hpx : List.Pairwise (fun a b : ℚ => a < b)
        ((sortedKeyRects vw cfg.kb_top).map Rect.x) := by
      rw [sortedKeyRects_xs vw cfg.kb_top hvw]
      exact List.Pairwise.map _ (fun a b hab => by
        exact mul_lt_mul_of_pos_right hab hvw) hpw
    have hpr : List.Pairwise (fun a b : Rect => a.x < b.x)
        (sortedKeyRects vw cfg.kb_top) := List.pairwise_map.mp hpx
    rw [List.pairwise_iff_getElem] at hpr ⊢
    intro i j hi hj hij
    have hi2 : i < (sortedKeyRects vw cfg.kb_top).length := by
      rw [sortedKeyRects_length vw cfg.kb_top hvw]
      rw [hlenK] at hi
      exact hi
    have hj2 : j < (sortedKeyRects vw cfg.kb_top).length := by
      rw [sortedKeyRects_length vw cfg.kb_top hvw]
      rw [hlenK] at hj
      exact hj
    have := hpr i j hi2 hj2 hij
    simpa [initKeys, List.enum_eq_enumFrom, List.getElem_enumFrom, mkKBKey]
      using this

/-- Witness for the corrected C5 at video width 115180 and kb_top 126.27. -/
theorem keyboard_layout_witness :
    (0 : ℚ) < 115180 ∧
      ((initKeys (Cfg.mk 300 (12627/100) 1 1 "green" false) 115180).length = 88 ∧
        (∀ i : ℕ,
          (hi : i < (initKeys (Cfg.mk 300 (12627/100) 1 1 "green" false) 115180).length) →
          ((initKeys (Cfg.mk 300 (12627/100) 1 1 "green" false) 115180).get
              ⟨i, hi⟩).midi_num = 21 + (i : ℤ)) ∧
        List.Pairwise (fun a b : KB_key => a.rect.x < b.rect.x)
          (initKeys (Cfg.mk 300 (12627/100) 1 1 "green" false) 115180)) :=
  ⟨by norm_num,
    keyboard_layout (Cfg.mk 300 (12627/100) 1 1 "green" false) 115180 (by norm_num)⟩

/-! ### C5 counterexample: adjacent keys whose rectangles overlap -/

/-- Two rectangles overlap when their interiors intersect. -/
def overlaps (a b : Rect) : Prop :=
  a.x < b.x + b.width ∧ b.x < a.x + a.width ∧
    a.y < b.y + b.height ∧ b.y < a.y + a.height

/-- Example layout configuration: video width 115180 (white key width 2215)
and kb_top 126.27 (black key height 80). -/
def cfg5Ex : Cfg := Cfg.mk 300 (12627/100) 1 1 "green" false

def keysEx : List KB_key := initKeys cfg5Ex 115180

def defaultKey : KB_key := mkKBKey cfg5Ex 0 (Rect.mk 0 0 0 0 "white" 1) false []

lemma patLen : black_key_pattern.length = 7 := rfl

lemma patG0 : black_key_pattern[0] = 1669/100 := rfl

lemma patG1 : black_key_pattern[1] = 0 := rfl

lemma patG2 : black_key_pattern[2] = 1397/100 := rfl

lemma patG3 : black_key_pattern[3] = 1679/100 := rfl

lemma patG4 : black_key_pattern[4] = 0 := rfl

lemma patG5 : black_key_pattern[5] = 1283/100 := rfl

lemma patG6 : black_key_pattern[6] = 1476/100 := rfl


set_option maxRecDepth 8000 in
set_option maxHeartbeats 1000000 in
lemma allKeyRectsEx_eval : allKeyRects 115180 (12627/100) = [Rect.mk 0 0 2215 (12627/100) "white" 1,
    Rect.mk 2215 0 2215 (12627/100) "white" 1,
    Rect.mk 4430 0 2215 (12627/100) "white" 1,
    Rect.mk 6645 0 2215 (12627/100) "white" 1,
    Rect.mk 8860 0 2215 (12627/100) "white" 1,
    Rect.mk 11075 0 2215 (12627/100) "white" 1,
    Rect.mk 13290 0 2215 (12627/100) "white" 1,
    Rect.mk 15505 0 2215 (12627/100) "white" 1,
    Rect.mk 17720 0 2215 (12627/100) "white" 1,
    Rect.mk 19935 0 2215 (12627/100) "white" 1,
    Rect.mk 22150 0 2215 (12627/100) "white" 1,
    Rect.mk 24365 0 2215 (12627/100) "white" 1,
    Rect.mk 26580 0 2215 (12627/100) "white" 1,
    Rect.mk 28795 0 2215 (12627/100) "white" 1,
    Rect.mk 31010 0 2215 (12627/100) "white" 1,
    Rect.mk 33225 0 2215 (12627/100) "white" 1,
    Rect.mk 35440 0 2215 (12627/100) "white" 1,
    Rect.mk 37655 0 2215 (12627/100) "white" 1,
    Rect.mk 39870 0 2215 (12627/100) "white" 1,
    Rect.mk 42085 0 2215 (12627/100) "white" 1,
    Rect.mk 44300 0 2215 (12627/100) "white" 1,
    Rect.mk 46515 0 2215 (12627/100) "white" 1,
    Rect.mk 48730 0 2215 (12627/100) "white" 1,
    Rect.mk 50945 0 2215 (12627/100) "white" 1,
    Rect.mk 53160 0 2215 (12627/100) "white" 1,
    Rect.mk 55375 0 2215 (12627/100) "white" 1,
    Rect.mk 57590 0 2215 (12627/100) "white" 1,
    Rect.mk 59805 0 2215 (12627/100) "white" 1,
    Rect.mk 62020 0 2215 (12627/100) "white" 1,
    Rect.mk 64235 0 2215 (12627/100) "white" 1,
    Rect.mk 66450 0 2215 (12627/100) "white" 1,
    Rect.mk 68665 0 2215 (12627/100) "white" 1,
    Rect.mk 70880 0 2215 (12627/100) "white" 1,
    Rect.mk 73095 0 2215 (12627/100) "white" 1,
    Rect.mk 75310 0 2215 (12627/100) "white" 1,
    Rect.mk 77525 0 2215 (12627/100) "white" 1,
    Rect.mk 79740 0 2215 (12627/100) "white" 1,
    Rect.mk 81955 0 2215 (12627/100) "white" 1,
    Rect.mk 84170 0 2215 (12627/100) "white" 1,
    Rect.mk 86385 0 2215 (12627/100) "white" 1,
    Rect.mk 88600 0 2215 (12627/100) "white" 1,
    Rect.mk 90815 0 2215 (12627/100) "white" 1,
    Rect.mk 93030 0 2215 (12627/100) "white" 1,
    Rect.mk 95245 0 2215 (12627/100) "white" 1,
    Rect.mk 97460 0 2215 (12627/100) "white" 1,
    Rect.mk 99675 0 2215 (12627/100) "white" 1,
    Rect.mk 101890 0 2215 (12627/100) "white" 1,
    Rect.mk 104105 0 2215 (12627/100) "white" 1,
    Rect.mk 106320 0 2215 (12627/100) "white" 1,
    Rect.mk 108535 0 2215 (12627/100) "white" 1,
    Rect.mk 110750 0 2215 (12627/100) "white" 1,
    Rect.mk 112965 0 2215 (12627/100) "white" 1,
    Rect.mk 1669 (4627/100) 1100 80 "black" 1,
    Rect.mk 5827 (4627/100) 1100 80 "black" 1,
    Rect.mk 8324 (4627/100) 1100 80 "black" 1,
    Rect.mk 12358 (4627/100) 1100 80 "black" 1,
    Rect.mk 14766 (4627/100) 1100 80 "black" 1,
    Rect.mk 17174 (4627/100) 1100 80 "black" 1,
    Rect.mk 21332 (4627/100) 1100 80 "black" 1,
    Rect.mk 23829 (4627/100) 1100 80 "black" 1,
    Rect.mk 27863 (4627/100) 1100 80 "black" 1,
    Rect.mk 30271 (4627/100) 1100 80 "black" 1,
    Rect.mk 32679 (4627/100) 1100 80 "black" 1,
    Rect.mk 36837 (4627/100) 1100 80 "black" 1,
    Rect.mk 39334 (4627/100) 1100 80 "black" 1,
    Rect.mk 43368 (4627/100) 1100 80 "black" 1,
    Rect.mk 45776 (4627/100) 1100 80 "black" 1,
    Rect.mk 48184 (4627/100) 1100 80 "black" 1,
    Rect.mk 52342 (4627/100) 1100 80 "black" 1,
    Rect.mk 54839 (4627/100) 1100 80 "black" 1,
    Rect.mk 58873 (4627/100) 1100 80 "black" 1,
    Rect.mk 61281 (4627/100) 1100 80 "black" 1,
    Rect.mk 63689 (4627/100) 1100 80 "black" 1,
    Rect.mk 67847 (4627/100) 1100 80 "black" 1,
    Rect.mk 70344 (4627/100) 1100 80 "black" 1,
    Rect.mk 74378 (4627/100) 1100 80 "black" 1,
    Rect.mk 76786 (4627/100) 1100 80 "black" 1,
    Rect.mk 79194 (4627/100) 1100 80 "black" 1,
    Rect.mk 83352 (4627/100) 1100 80 "black" 1,
    Rect.mk 85849 (4627/100) 1100 80 "black" 1,
    Rect.mk 89883 (4627/100) 1100 80 "black" 1,
    Rect.mk 92291 (4627/100) 1100 80 "black" 1,
    Rect.mk 94699 (4627/100) 1100 80 "black" 1,
    Rect.mk 98857 (4627/100) 1100 80 "black" 1,
    Rect.mk 101354 (4627/100) 1100 80 "black" 1,
    Rect.mk 105388 (4627/100) 1100 80 "black" 1,
    Rect.mk 107796 (4627/100) 1100 80 "black" 1,
    Rect.mk 110204 (4627/100) 1100 80 "black" 1] := by
  norm_num [allKeyRects, whiteKeys, blackKeys, white_key_width, black_key_height,
    black_key_width, scaled_black_key_pattern, patLen, range52_eval, range51_eval,
    List.filterMap_cons, patE0, patE1, patE2, patE3, patE4, patE5, patE6,
    patG0, patG1, patG2, patG3, patG4, patG5, patG6]

set_option maxHeartbeats 1000000 in
lemma allKeyRectsEx_x0 : ∀ r ∈ allKeyRects 115180 (12627/100), r.x = 0 →
    r = Rect.mk 0 0 2215 (12627/100) "white" 1 := by
  rw [allKeyRectsEx_eval]
  intro r hr hx
  fin_cases hr
  all_goals first | rfl | (exfalso; norm_num at hx)

set_option maxHeartbeats 1000000 in
lemma allKeyRectsEx_x1669 : ∀ r ∈ allKeyRects 115180 (12627/100), r.x = 1669 →
    r = Rect.mk 1669 (4627/100) 1100 80 "black" 1 := by
  rw [allKeyRectsEx_eval]
  intro r hr hx
  fin_cases hr
  all_goals first | rfl | (exfalso; norm_num at hx)

lemma sortedEx_xs : (sortedKeyRects 115180 (12627/100)).map Rect.x
    = baseXsSorted.map (fun q => q * 115180) :=
  sortedKeyRects_xs 115180 (12627/100) (by norm_num)

lemma sortedEx0 : (sortedKeyRects 115180 (12627/100))[0]?
    = some (Rect.mk 0 0 2215 (12627/100) "white" 1) := by
  have hx := congrArg (fun l : List ℚ => l[0]?) sortedEx_xs
  simp only [List.getElem?_map] at hx
  rw [show (baseXsSorted[0]? : Option ℚ) = some 0 from rfl] at hx
  cases hL : (sortedKeyRects 115180 (12627/100))[0]? with
  | none => rw [hL] at hx; simp at hx
  | some r =>
    rw [hL] at hx
    simp only [Option.map_some', Option.some.injEq] at hx
    have hmem : r ∈ allKeyRects 115180 (12627/100) := by
      have hmem2 : r ∈ sortedKeyRects 115180 (12627/100) := List.getElem?_mem hL
      rw [sortedKeyRects] at hmem2
      exact (List.mem_insertionSort _).mp hmem2
    rw [allKeyRectsEx_x0 r hmem (by rw [hx]; norm_num)]

lemma sortedEx1 : (sortedKeyRects 115180 (12627/100))[1]?
    = some (Rect.mk 1669 (4627/100) 1100 80 "black" 1) := by
  have hx := congrArg (fun l : List ℚ => l[1]?) sortedEx_xs
  simp only [List.getElem?_map] at hx
  rw [show (baseXsSorted[1]? : Option ℚ) = some (1669/115180) from rfl] at hx
  cases hL : (sortedKeyRects 115180 (12627/100))[1]? with
  | none => rw [hL] at hx; simp at hx
  | some r =>
    rw [hL] at hx
    simp only [Option.map_some', Option.some.injEq] at hx
    have hmem : r ∈ allKeyRects 115180 (12627/100) := by
      have hmem2 : r ∈ sortedKeyRects 115180 (12627/100) := List.getElem?_mem hL
      rw [sortedKeyRects] at hmem2
      exact (List.mem_insertionSort _).mp hmem2
    rw [allKeyRectsEx_x1669 r hmem (by rw [hx]; norm_num)]

/-- Counterexample to C5 as stated: with video width 115180 and
kb_top = 126.27, the two adjacent keys with midi numbers 21 and 22 (the
first natural and the first sharp) have overlapping rectangles: the sharp
key rectangle [1669, 2769] x [46.27, 126.27] intersects the natural key
rectangle [0, 2215] x [0, 126.27].  Neighboring key rectangles do overlap. -/
theorem keyboard_layout_counterexample :
    (keysEx.getD 0 defaultKey).midi_num = 21 ∧
      (keysEx.getD 1 defaultKey).midi_num = 22 ∧
      overlaps (keysEx.getD 0 defaultKey).rect (keysEx.getD 1 defaultKey).rect := by
  have h0 : keysEx.getD 0 defaultKey
      = mkKBKey cfg5Ex (21 + ((0 + 0 : ℕ) : ℤ)) (Rect.mk 0 0 2215 (12627/100) "white" 1)
          (decide ((Rect.mk 0 0 2215 (12627/100) "white" 1).width < white_key_width 115180)) [] := by
    rw [keysEx, initKeys, List.getD_eq_getElem?_getD]
    simp only [cfg5Ex, List.getElem?_map, List.enum_eq_enumFrom, List.getElem?_enumFrom,
      sortedEx0, Option.map_some', Option.getD_some]
  have h1 : keysEx.getD 1 defaultKey
      = mkKBKey cfg5Ex (21 + ((0 + 1 : ℕ) : ℤ)) (Rect.mk 1669 (4627/100) 1100 80 "black" 1)
          (decide ((Rect.mk 1669 (4627/100) 1100 80 "black" 1).width < white_key_width 115180)) [] := by
    rw [keysEx, initKeys, List.getD_eq_getElem?_getD]
    simp only [cfg5Ex, List.getElem?_map, List.enum_eq_enumFrom, List.getElem?_enumFrom,
      sortedEx1, Option.map_some', Option.getD_some]
  rw [h0, h1]
  refine ⟨by norm_num [mkKBKey], by norm_num [mkKBKey], ?_⟩
  norm_num [mkKBKey, overlaps]


end PianoTiles
